import Mathlib

/-
Verification of the fractal-ts-sdk domain model against its specification.

The TypeScript sources are embedded shallowly: plain objects become
structures, validators become functions returning lists of error strings,
builder methods become state-transition functions, and a method that can
throw becomes a function into `Except String _`.  JavaScript quirks that
the sources rely on (array truthiness under `!`, `Object.prototype`
members visible through property reads, object identity under `===`,
shared array references under object spread) are modelled explicitly and
documented at each definition.
-/

namespace FractalSdk

/-- Truthiness of a JavaScript array value: every array is an object and
every object is truthy, regardless of its contents.  Several validators in
the sources return `string[]` and are then used in a boolean position
(`!isValid(...)` or `a && b`); this function is that coercion. -/
def jsArrayTruthy (_errors : List String) : Bool := true

/-- Reading a missing property yields `undefined`; `RegExp.test` coerces
`undefined` to the string "undefined".  Used where a source file reads a
field under a name the object does not carry. -/
def jsUndefinedString : String := "undefined"

/-- Result of `Object.prototype.toString` on a plain object that does not
override `toString`. -/
def jsObjectDefaultToString : String := "[object Object]"

/-- Ownership enum from src/src/values/owner_type.ts (string enum with
members Personal and Organizational). -/
inductive OwnerType where
  | Personal
  | Organizational
deriving DecidableEq

/-- Enum from values/infrastructure_domain.ts. -/
inductive InfrastructureDomain where
  | ApiManagement
  | NetworkAndCompute
  | CustomWorkloads
  | Messaging
  | Storage
  | Observability
  | Security
deriving DecidableEq

/-- String value of an OwnerType enum member, as interpolated by the
sources. -/
def ownerTypeToString : OwnerType → String
  | .Personal => "Personal"
  | .Organizational => "Organizational"

namespace Values

/-- Splits a character list at every hyphen (code point 45), mirroring how
the fixed regexes decompose their input: "a-b" gives [[a],[b]], a leading,
trailing or doubled hyphen produces an empty segment. -/
def splitOnHyphen : List Char → List (List Char)
  | [] => [[]]
  | c :: rest =>
    if c.val == 45 then
      [] :: splitOnHyphen rest
    else
      match splitOnHyphen rest with
      | [] => [[c]]
      | seg :: segs => (c :: seg) :: segs

/-- One kebab segment: nonempty, starts with a lowercase ASCII letter,
rest lowercase letters or digits. -/
def kebabSegmentOk : List Char → Bool
  | [] => false
  | c :: rest => c.isLower && rest.all (fun d => d.isLower || d.isDigit)

/-- Test of the fixed kebab-case regex from
src/src/values/kebab_case_string.ts: a string matches iff every
hyphen-separated segment matches one kebab segment. -/
def kebabRegexMatch (s : String) : Bool :=
  (splitOnHyphen s.data).all kebabSegmentOk

/-- Test of the fixed Pascal-case regex from
src/src/values/pascal_case_string.ts: first character an uppercase ASCII
letter, remaining characters ASCII letters. -/
def pascalRegexMatch (s : String) : Bool :=
  match s.data with
  | [] => false
  | c :: rest => c.isUpper && rest.all Char.isAlpha

/-- ASCII hexadecimal digit. -/
def isHexDigitChar (c : Char) : Bool :=
  c.isDigit || (c.val ≥ 97 && c.val ≤ 102) || (c.val ≥ 65 && c.val ≤ 70)

/-- Test of the canonical 8-4-4-4-12 UUID regex used by
src/src/values/owner_id.ts and values/guid.ts. -/
def uuidRegexMatch (s : String) : Bool :=
  match splitOnHyphen s.data with
  | [a, b, c, d, e] =>
    a.length == 8 && b.length == 4 && c.length == 4 && d.length == 4 &&
    e.length == 12 && (a ++ b ++ c ++ d ++ e).all isHexDigitChar
  | _ => false

/-- Validator from src/src/values/kebab_case_string.ts (first document of
the file): an empty list means valid. -/
def isValidKebabCaseString (value : String) : List String :=
  if kebabRegexMatch value then [] else ["Value must be in kebab-case"]

/-- Validator from src/src/values/pascal_case_string.ts. -/
def isValidPascalCaseString (value : String) : List String :=
  if pascalRegexMatch value then []
  else ["Value \x27" ++ value ++ "\x27 must be in PascalCase"]

/-- Validator from src/src/values/owner_id.ts (first document): returns
an error list, empty when the value is a UUID. -/
def isValidOwnerId (value : String) : List String :=
  if uuidRegexMatch value then []
  else ["Owner Id \x27" ++ value ++ "\x27 must be a valid uuid"]

/-- Validator from values/guid.ts (isValidUuid). -/
def isValidUuid (value : String) : List String :=
  if uuidRegexMatch value then []
  else [" Value \x27" ++ value ++ "\x27 must be a valid uuid"]

/-- Validator from src/src/values/service_account_id.ts: a falsy (empty)
string is rejected with a dedicated message, otherwise the UUID check
runs. -/
def isValidServiceAccountId (serviceAccountIdValue : String) : List String :=
  if serviceAccountIdValue == "" then ["Value must be a non-empty string"]
  else isValidUuid serviceAccountIdValue

/-- JavaScript string trim, restricted to ASCII whitespace, used by
isNonEmptyString in values/helpers.ts. -/
def jsTrim (s : String) : String :=
  let ws : Char → Bool := fun c => c.val == 32 || (c.val ≥ 9 && c.val ≤ 13)
  String.mk ((s.data.dropWhile ws).reverse.dropWhile ws |>.reverse)

/-- isNonEmptyString from values/helpers.ts: the value is a string whose
trimmed form is nonempty. -/
def isNonEmptyString (value : String) : Bool :=
  !(jsTrim value == "")

namespace KebabCaseString

/-- Builder state of getKebabCaseStringBuilder: the kebabValue string;
the default is the empty string. -/
def DEFAULT : String := ""

/-- withValue from src/src/values/kebab_case_string.ts lines 93-96: the
source stores the candidate unchecked (internalState.kebabValue = value)
and returns the builder, so no error is ever raised here. -/
def withValue (value : String) : Except String String :=
  Except.ok value

/-- build from src/src/values/kebab_case_string.ts: re-validates and
throws a SyntaxError joining the error list when invalid. -/
def build (st : String) : Except String String :=
  let validationErrors := isValidKebabCaseString st
  if validationErrors.length > 0 then
    Except.error (String.intercalate "\n" validationErrors)
  else
    Except.ok st

end KebabCaseString

namespace PascalCaseString

def DEFAULT : String := ""

/-- withValue from src/src/values/pascal_case_string.ts: stores the
candidate unchecked (internalState.value = value). -/
def withValue (value : String) : Except String String :=
  Except.ok value

/-- build from src/src/values/pascal_case_string.ts. -/
def build (st : String) : Except String String :=
  let validationErrors := isValidPascalCaseString st
  if validationErrors.length > 0 then
    Except.error (String.intercalate "\n" validationErrors)
  else
    Except.ok st

end PascalCaseString

namespace OwnerId

def DEFAULT : String := ""

/-- withValue from src/src/values/owner_id.ts lines 83-89.  The source
guard is `if (!isValidOwnerId(value))`, but isValidOwnerId returns a
string array and every array is truthy in JavaScript, so the negation is
always false and the RangeError branch is dead: the value is stored
unchecked. -/
def withValue (value : String) : Except String String :=
  if !(jsArrayTruthy (isValidOwnerId value)) then
    Except.error ("Value must be a uuid")
  else
    Except.ok value

/-- build from src/src/values/owner_id.ts: here the error list is
inspected through its length, so the check is effective. -/
def build (st : String) : Except String String :=
  let validationErrors := isValidOwnerId st
  if validationErrors.length > 0 then
    Except.error (String.intercalate "\n" validationErrors)
  else
    Except.ok st

end OwnerId

namespace ServiceAccountId

def DEFAULT : String := ""

/-- withValue from src/src/values/service_account_id.ts: stores the
candidate unchecked (internalState.serviceAccountIdValue = value). -/
def withValue (value : String) : Except String String :=
  Except.ok value

/-- build from src/src/values/service_account_id.ts. -/
def build (st : String) : Except String String :=
  let validationErrors := isValidServiceAccountId st
  if validationErrors.length > 0 then
    Except.error (String.intercalate "\n" validationErrors)
  else
    Except.ok st

end ServiceAccountId

/-- Version value from values/helpers.ts (second document of the file,
the Version module): major, minor, patch. -/
structure Version where
  major : Int
  minor : Int
  patch : Int
deriving DecidableEq

/-- Module-level equals from values/helpers.ts. -/
def versionEquals (a b : Version) : Bool :=
  decide (a.major = b.major) && decide (a.minor = b.minor) &&
  decide (a.patch = b.patch)

/-- Module-level toString from values/helpers.ts: the dotted string with
a leading v. -/
def versionToString (version : Version) : String :=
  "v" ++ toString version.major ++ "." ++ toString version.minor ++ "." ++
  toString version.patch

/-- DEFAULT_VERSION from values/helpers.ts: the all-zero triple, designed
to fail validation. -/
def DEFAULT_VERSION : Version := ⟨0, 0, 0⟩

/-- isValidVersion from values/helpers.ts lines 122-127: only the
all-zero (default) triple is rejected. -/
def isValidVersion (version : Version) : List String :=
  if versionEquals version DEFAULT_VERSION then ["Version must be initialized"]
  else []

/-- withMajor from values/helpers.ts lines 160-180: the source assigns
internalState.major = major BEFORE testing major < 0, so the state is
mutated even when the RangeError is thrown.  The second component is the
thrown error, if any. -/
def withMajor (st : Version) (major : Int) : Version × Option String :=
  ({ st with major := major },
   if major < 0 then some ("Major version must be non-negative") else none)

/-- withMinor from values/helpers.ts: tests before assigning, so a
rejected input leaves the state unchanged. -/
def withMinor (st : Version) (minor : Int) : Version × Option String :=
  if minor < 0 then (st, some ("Minor version must be non-negative"))
  else ({ st with minor := minor }, none)

/-- withPatch from values/helpers.ts: tests before assigning. -/
def withPatch (st : Version) (patch : Int) : Version × Option String :=
  if patch < 0 then (st, some ("Patch version must be non-negative"))
  else ({ st with patch := patch }, none)

/-- build from values/helpers.ts lines 187-199. -/
def buildVersion (st : Version) : Except String Version :=
  let validationErrors := isValidVersion st
  if validationErrors.length > 0 then
    Except.error (String.intercalate "\n" validationErrors)
  else
    Except.ok st

end Values

namespace Flat

/-- OwnerId value object from src/src/values/owner_id.ts. -/
structure OwnerId where
  value : String
deriving DecidableEq

/-- KebabCaseString value object from the first document of
src/src/values/kebab_case_string.ts: the raw string lives in the field
kebabValue (there is no field named value). -/
structure KebabCaseString where
  kebabValue : String
deriving DecidableEq

/-- BoundedContextId from src/src/bounded_context_id.ts. -/
structure BoundedContextId where
  ownerType : OwnerType
  ownerId : OwnerId
  name : KebabCaseString
deriving DecidableEq

/-- DEFAULT_BOUNDED_CONTEXT_ID from src/src/bounded_context_id.ts: empty
owner id and empty name, documented as designed to fail validation. -/
def DEFAULT_BOUNDED_CONTEXT_ID : BoundedContextId :=
  ⟨OwnerType.Personal, ⟨""⟩, ⟨""⟩⟩

/-- isValidBoundedContextId from src/src/bounded_context_id.ts lines
64-66.  The source computes
`isValidOwnerId(value.ownerId.value) && isValidKebabCaseString(value.name.value)`;
both calls return string arrays, and in JavaScript `&&` on a truthy left
operand yields the right operand, so in the boolean position of build the
result is always truthy.  Moreover `value.name.value` reads a field the
KebabCaseString does not carry (it stores kebabValue), so the regex is
tested against the coercion of `undefined`; neither detail can make the
result falsy. -/
def isValidBoundedContextId (value : BoundedContextId) : Bool :=
  jsArrayTruthy (Values.isValidOwnerId value.ownerId.value) &&
  jsArrayTruthy (Values.isValidKebabCaseString jsUndefinedString)

/-- build from src/src/bounded_context_id.ts lines 143-152: throws a
SyntaxError when isValidBoundedContextId is falsy, otherwise returns a
copy of the internal state. -/
def build (st : BoundedContextId) : Except String BoundedContextId :=
  if !(isValidBoundedContextId st) then
    Except.error (" Bounded Context ID is invalid. OwnerId must be initialized and name must be in Kebab case")
  else
    Except.ok st

end Flat

namespace GenericParameters

/-- Result of a JavaScript property read on the parameter container:
either undefined (no own property and no inherited member), null (the
`??` sentinel), a stored value, or a member inherited from
Object.prototype. -/
inductive JsVal (α : Type) where
  | undef
  | jsnull
  | value (v : α)
  | protoMember (name : String)
deriving DecidableEq

/-- Own property names of Object.prototype: a plain object literal `{}`
inherits these, so reading one of these names on the container yields a
defined (non-undefined, non-null) member even when nothing was pushed. -/
def objectPrototypeKeys : List String :=
  ["constructor", "hasOwnProperty", "isPrototypeOf", "propertyIsEnumerable",
   "toLocaleString", "toString", "valueOf", "__defineGetter__",
   "__defineSetter__", "__lookupGetter__", "__lookupSetter__", "__proto__"]

/-- The container of getParametersInstance: its own enumerable string
properties, in insertion order. -/
abbrev Container (α : Type) := List (String × α)

/-- Association-list update used by `container[key] = value`: overwrite
in place when the key exists, append otherwise. -/
def assocSet {α : Type} : Container α → String → α → Container α
  | [], k, v => [(k, v)]
  | (k0, v0) :: rest, k, v =>
    if k0 == k then (k0, v) :: rest else (k0, v0) :: assocSet rest k v

/-- Semantics of the property read `container[name]`: the own property
when present, else the inherited Object.prototype member, else
undefined. -/
def containerGet {α : Type} (container : Container α) (name : String) : JsVal α :=
  match container.lookup name with
  | some v => JsVal.value v
  | none =>
    if objectPrototypeKeys.contains name then JsVal.protoMember name
    else JsVal.undef

/-- getRequiredFieldByName from the generic parameters module
(src/unnamed/part_009 lines 246-251): throws when `container[name]` is
undefined or null, and returns `container[name]` otherwise — including an
inherited Object.prototype member. -/
def getRequiredFieldByName {α : Type} (container : Container α) (name : String) :
    Except String (JsVal α) :=
  match containerGet container name with
  | JsVal.undef => Except.error ("Required field " ++ name ++ " is not defined")
  | JsVal.jsnull => Except.error ("Required field " ++ name ++ " is not defined")
  | v => Except.ok v

/-- getOptionalFieldByName from src/unnamed/part_009 line 252:
`container[name] ?? null`, which replaces only undefined and null by the
null sentinel. -/
def getOptionalFieldByName {α : Type} (container : Container α) (name : String) :
    JsVal α :=
  match containerGet container name with
  | JsVal.undef => JsVal.jsnull
  | JsVal.jsnull => JsVal.jsnull
  | v => v

/-- push from src/unnamed/part_009 line 254: `container[key] = value`.
Assigning under the key __proto__ hits the Object.prototype accessor and
creates no own property; any other key is written as an own property,
shadowing an inherited member of the same name. -/
def push {α : Type} (container : Container α) (key : String) (value : α) :
    Container α :=
  if key == "__proto__" then container else assocSet container key value

/-- remove from src/unnamed/part_009 line 255: `delete container[key]`
removes the own property only. -/
def remove {α : Type} (container : Container α) (key : String) : Container α :=
  container.filter (fun p => p.1 != key)

/-- toMap from src/unnamed/part_009 lines 256-258: a shallow copy of the
own enumerable properties. -/
def toMap {α : Type} (container : Container α) : Container α := container

/-- getAllFieldNames from src/unnamed/part_009 line 253:
Object.keys(container). -/
def getAllFieldNames {α : Type} (container : Container α) : List String :=
  container.map Prod.fst

/-- The container of a fresh getParametersInstance() is the empty object
literal. -/
def getParametersInstance {α : Type} : Container α := []

end GenericParameters

namespace Ids

/-- A KebabCaseString object of the identifier-layer snapshot (the
variant carrying value, equals and toString).  JavaScript compares
objects under `===` by identity, so each object carries an allocation
identifier `ref`: each call of the kebab builder returns a freshly spread
object, hence a fresh ref; the module-level default object has ref 0. -/
structure KebabObj where
  ref : Nat
  value : String
deriving DecidableEq

/-- The shared module-level DEFAULT_KEBAB_CASE_STRING object. -/
def DEFAULT_KEBAB : KebabObj := ⟨0, ""⟩

/-- Body of the toString closure of a kebab object: the built closure
returns the internal value, and the default object returns the empty
string, which is also its value. -/
def kebabToString (k : KebabObj) : String := k.value

/-- Body of the equals closure attached by the kebab builder on build:
`internalState.value === other.value`, string value equality. -/
def kebabEquals (a b : KebabObj) : Bool := decide (a.value = b.value)

/-- Identifier-layer kebab validator (the snapshot whose message quotes
the value, used by the id modules). -/
def isValidKebabCaseString (value : String) : List String :=
  if Values.kebabRegexMatch value then []
  else [" Value \x27" ++ value ++ "\x27 must be in kebab-case"]

/-- OwnerId value object as consumed by bounded_context/id.ts, which
reads the field ownerIdValue. -/
structure OwnerIdObj where
  ownerIdValue : String
deriving DecidableEq

/-- Modelled from the spec: the owner id validator called by
bounded_context/id.ts as `isValidOwnerId(value.ownerId)`; the snapshot of
values/owner_id.ts whose validator receives the OwnerId value object and
returns an error list is not among the provided sources.  Per the spec, a
leaf identifier must match the RFC-4122 UUID textual form and validators
return a list of errors, empty when valid. -/
def isValidOwnerIdObj (id : OwnerIdObj) : List String :=
  if Values.uuidRegexMatch id.ownerIdValue then []
  else ["Owner Id \x27" ++ id.ownerIdValue ++ "\x27 must be a valid uuid"]

/-- BoundedContextId from bounded_context/id.ts (the directory module,
second document of src/unnamed/part_019). -/
structure BoundedContextId where
  ownerType : OwnerType
  ownerId : OwnerIdObj
  name : KebabObj
deriving DecidableEq

/-- Module-level boundedContextIdToString from bounded_context/id.ts:
ownerType, owner id and name joined by slashes. -/
def boundedContextIdToString (id : BoundedContextId) : String :=
  ownerTypeToString id.ownerType ++ "/" ++ id.ownerId.ownerIdValue ++ "/" ++
  id.name.value

/-- Module-level equals from bounded_context/id.ts lines 140-143 of
src/unnamed/part_019: structural comparison of ownerType, the owner id
string and the name string. -/
def boundedContextIdEquals (a b : BoundedContextId) : Bool :=
  decide (a.ownerType = b.ownerType) &&
  decide (a.ownerId.ownerIdValue = b.ownerId.ownerIdValue) &&
  decide (a.name.value = b.name.value)

/-- isValidBoundedContextId from bounded_context/id.ts: delegates to the
leaf validators and prefixes every error with a context label built by
boundedContextIdToString. -/
def isValidBoundedContextId (value : BoundedContextId) : List String :=
  let ownerIdErrors := isValidOwnerIdObj value.ownerId
  let nameErrors := isValidKebabCaseString value.name.value
  ownerIdErrors.map (fun x =>
    "[Bounded Context Id: " ++ boundedContextIdToString value ++ "] Owner Id error: " ++ x) ++
  nameErrors.map (fun x =>
    "[Bounded Context Id: " ++ boundedContextIdToString value ++ "] Name error: " ++ x)

/-- DEFAULT_BOUNDED_CONTEXT_ID from bounded_context/id.ts. -/
def DEFAULT_BOUNDED_CONTEXT_ID : BoundedContextId :=
  ⟨OwnerType.Personal, ⟨""⟩, DEFAULT_KEBAB⟩

/-- build of the bounded context id builder from bounded_context/id.ts. -/
def buildBoundedContextId (st : BoundedContextId) : Except String BoundedContextId :=
  let validationErrors := isValidBoundedContextId st
  if validationErrors.length > 0 then
    Except.error (String.intercalate "\n" validationErrors)
  else
    Except.ok st

/-- ComponentId from component/id.ts (second document of
src/unnamed/part_002): wraps a KebabCaseString object. -/
structure ComponentId where
  value : KebabObj
deriving DecidableEq

/-- Module-level equals from component/id.ts line 71 of
src/unnamed/part_002: `a.value === b.value` compares the two
KebabCaseString OBJECTS, which under JavaScript `===` is reference
identity, not value equality. -/
def componentIdEquals (a b : ComponentId) : Bool :=
  decide (a.value.ref = b.value.ref)

/-- Body of the toString closure of a component id: the built closure
returns `builtId.value.toString()`; the default object returns the empty
string, which its value also is. -/
def componentIdToString (id : ComponentId) : String := kebabToString id.value

/-- isValidId from component/id.ts: validates the kebab string obtained
from the toString of the wrapped value, with a context label. -/
def isValidId (id : ComponentId) : List String :=
  (isValidKebabCaseString (kebabToString id.value)).map (fun x =>
    "[Component Id: " ++ kebabToString id.value ++ "] Id error: " ++ x)

/-- DEFAULT_COMPONENT_ID from component/id.ts: wraps the shared default
kebab object. -/
def DEFAULT_COMPONENT_ID : ComponentId := ⟨DEFAULT_KEBAB⟩

/-- build of the component id builder from component/id.ts: validates and
returns a spread of the internal state (the wrapped kebab object, and so
its identity, is preserved). -/
def buildComponentId (st : ComponentId) : Except String ComponentId :=
  let validationErrors := isValidId st
  if validationErrors.length > 0 then
    Except.error (String.intercalate "\n" validationErrors)
  else
    Except.ok st

/-- FractalId from fractal/id.ts (second document of
src/unnamed/part_023).  The field toStr carries the result of the
per-instance toString closure: the default instance answers the empty
string, a built instance answers the composed path. -/
structure FractalId where
  boundedContextId : BoundedContextId
  name : KebabObj
  version : Values.Version
  toStr : String
deriving DecidableEq

/-- Module-level toString from fractal/id.ts: bounded context path, name
and version joined with a slash and a colon. -/
def fractalIdCompose (id : FractalId) : String :=
  boundedContextIdToString id.boundedContextId ++ "/" ++ kebabToString id.name ++
  ":" ++ Values.versionToString id.version

/-- Module-level equals from fractal/id.ts lines 76-79 of
src/unnamed/part_023: delegates to the equals closures of the bounded
context id, the kebab name and the version, each of which compares
values structurally. -/
def fractalIdEquals (a b : FractalId) : Bool :=
  boundedContextIdEquals a.boundedContextId b.boundedContextId &&
  kebabEquals a.name b.name &&
  Values.versionEquals a.version b.version

/-- isValidFractalId from fractal/id.ts: delegates to the bounded context
id, kebab and version validators, prefixing each error with a label that
uses the toString of this instance. -/
def isValidFractalId (id : FractalId) : List String :=
  let boundedContextIdErrors := isValidBoundedContextId id.boundedContextId
  let nameErrors := isValidKebabCaseString id.name.value
  let versionErrors := Values.isValidVersion id.version
  boundedContextIdErrors.map (fun x =>
    "[Fractal Id: " ++ id.toStr ++ "] Bounded Context Id error: " ++ x) ++
  nameErrors.map (fun x =>
    "[Fractal Id: " ++ id.toStr ++ "] Name errors: " ++ x) ++
  versionErrors.map (fun x =>
    "[Fractal Id: " ++ id.toStr ++ "] Version error: " ++ x)

/-- DEFAULT_FRACTAL_ID from fractal/id.ts: default constituents, and a
toString closure answering the empty string. -/
def DEFAULT_FRACTAL_ID : FractalId :=
  ⟨DEFAULT_BOUNDED_CONTEXT_ID, DEFAULT_KEBAB, Values.DEFAULT_VERSION, ""⟩

/-- build of the fractal id builder: validates, then attaches toString
and equals closures over the built instance. -/
def buildFractalId (st : FractalId) : Except String FractalId :=
  let validationErrors := isValidFractalId st
  if validationErrors.length > 0 then
    Except.error (String.intercalate "\n" validationErrors)
  else
    Except.ok { st with toStr := fractalIdCompose st }

/-- LiveSystemId from live_system/id.ts (src/unnamed/part_006). -/
structure LiveSystemId where
  boundedContextId : BoundedContextId
  name : KebabObj
  toStr : String
deriving DecidableEq

/-- Module-level toString from live_system/id.ts: bounded context path
and name joined by a slash. -/
def liveSystemIdCompose (id : LiveSystemId) : String :=
  boundedContextIdToString id.boundedContextId ++ "/" ++ id.name.value

/-- isValidLiveSystemId from live_system/id.ts lines 40-49 of
src/unnamed/part_006.  The context labels literally say Fractal Id in the
source. -/
def isValidLiveSystemId (id : LiveSystemId) : List String :=
  let boundedContextIdErrors := isValidBoundedContextId id.boundedContextId
  let nameErrors := isValidKebabCaseString id.name.value
  boundedContextIdErrors.map (fun x =>
    "[Fractal Id: " ++ id.toStr ++ "] Bounded Context Id error: " ++ x) ++
  nameErrors.map (fun x =>
    "[Fractal Id: " ++ id.toStr ++ "] Name errors: " ++ x)

/-- DEFAULT_LIVE_SYSTEM_ID from live_system/id.ts: the default literal
carries NO toString member, so `id.toString()` on it resolves to
Object.prototype.toString. -/
def DEFAULT_LIVE_SYSTEM_ID : LiveSystemId :=
  ⟨DEFAULT_BOUNDED_CONTEXT_ID, DEFAULT_KEBAB, jsObjectDefaultToString⟩

/-- build of the live system id builder: validates, then attaches the
toString closure over the built instance. -/
def buildLiveSystemId (st : LiveSystemId) : Except String LiveSystemId :=
  let validationErrors := isValidLiveSystemId st
  if validationErrors.length > 0 then
    Except.error (String.intercalate "\n" validationErrors)
  else
    Except.ok { st with toStr := liveSystemIdCompose st }

end Ids

/-- JSON values, for the wire bodies built by the deploy services. -/
inductive Json where
  | str (s : String)
  | boolean (b : Bool)
  | arr (elements : List Json)
  | obj (fields : List (String × Json))

/-- Lookup of a top-level field of a JSON object. -/
def Json.field (j : Json) (key : String) : Option Json :=
  match j with
  | Json.obj fields => fields.lookup key
  | _ => none

/-- Whether a JSON value is an object (a mapping). -/
def Json.isObj : Json → Bool
  | Json.obj _ => true
  | _ => false

/-- Whether an operation modelled in `Except` threw. -/
def exceptFailed {α : Type} : Except String α → Bool
  | Except.error _ => true
  | Except.ok _ => false

namespace Comp

/-- ComponentType from component/type.ts: an infrastructure domain and a
PascalCaseString name; only the string value of the name is read by the
embedded operations, carried here as nameValue.  The blueprint variant
additionally carries a serviceDeliveryModel, which no embedded operation
reads, so it is omitted. -/
structure ComponentType where
  domain : InfrastructureDomain
  nameValue : String
deriving DecidableEq

/-- DEFAULT_COMPONENT_TYPE from component/type.ts: ApiManagement domain
and the default (empty, invalid) Pascal string. -/
def DEFAULT_COMPONENT_TYPE : ComponentType := ⟨InfrastructureDomain.ApiManagement, ""⟩

/-- isValidComponentType from component/type.ts: validates the name as
PascalCase, prefixing errors with a label carrying the name value. -/
def isValidComponentType (type : ComponentType) : List String :=
  let nameError := Values.isValidPascalCaseString type.nameValue
  if nameError.length > 0 then
    nameError.map (fun x => "[Component Type: " ++ type.nameValue ++ "]" ++ x)
  else []

/-- ComponentLink as consumed by the deploy services, which read l.id and
l.parameters.  Modelled from the spec for the parameters field: the
snapshot of component/link.ts carrying a parameters container (the one
the test utilities build via withParameters and the services read) is not
among the provided sources — the snapshot that is present carries a
settings record instead.  Per the spec a link is a typed wiring
relationship to another component carrying settings, serialized as a
componentId/settings pair.  The type field is read by no embedded
operation and is omitted. -/
structure Link where
  id : Ids.ComponentId
  parameters : GenericParameters.Container Json

/-- BlueprintComponentDependency from fractal/component/dependency.ts: a
reference to a component id. -/
structure Dependency where
  id : Ids.ComponentId

/-- Component record from component/index.ts, extended with the
BlueprintComponent fields isLocked and recreateOnFailure from
fractal/component/index.ts (plain Components leave them at their
defaults; the operational LiveSystemComponent fields are read by no
embedded operation and are omitted).  parameters models the generic
parameter container, outputFields the record under outputFields.value. -/
structure Component where
  type : ComponentType
  id : Ids.ComponentId
  version : Values.Version
  displayName : String
  description : String
  parameters : GenericParameters.Container Json
  outputFields : GenericParameters.Container Json
  links : List Link
  dependencies : List Dependency
  isLocked : Bool
  recreateOnFailure : Bool

/-- addContextToErrors from src/src/component/entity.ts: prefixes every
error with a label carrying the toString of the component id. -/
def addContextToErrors (componentId : Ids.ComponentId) (errors : List String) :
    List String :=
  errors.map (fun error =>
    "[Component: " ++ Ids.componentIdToString componentId ++ "]" ++ error)

/-- isValidComponent from src/src/component/entity.ts lines 70-93.  The
returned array in the source is
`[...idErrors, ...typeErrors, ...versionErrors, ...typeErrors, ...displayNameErrors]`
— the type errors are spread TWICE. -/
def isValidComponent (component : Component) : List String :=
  let idErrors := addContextToErrors component.id (Ids.isValidId component.id)
  let typeErrors :=
    addContextToErrors component.id (isValidComponentType component.type)
  let versionErrors :=
    addContextToErrors component.id (Values.isValidVersion component.version)
  let displayNameErrors :=
    addContextToErrors component.id
      (if Values.isNonEmptyString component.displayName then []
       else ["Display name must be a non-empty string"])
  idErrors ++ typeErrors ++ versionErrors ++ typeErrors ++ displayNameErrors

/-- build from src/src/component/entity.ts lines 274-283: throws a single
SyntaxError joining the error list with newlines, otherwise returns a
copy of the state. -/
def buildComponent (st : Component) : Except String Component :=
  let validationErrors := isValidComponent st
  if validationErrors.length > 0 then
    Except.error (String.intercalate "\n" validationErrors)
  else
    Except.ok st

/-- isValidBlueprintComponent from fractal/component/entity.ts: validates
a copy of the component whose dependencies are emptied. -/
def isValidBlueprintComponent (component : Component) : List String :=
  isValidComponent { component with dependencies := [] }

/-- isValidLiveSystemComponent from live_system/component/entity.ts:
delegates to isValidBlueprintComponent. -/
def isValidLiveSystemComponent (component : Component) : List String :=
  isValidBlueprintComponent component

/-- build of the blueprint component builder from
fractal/component/entity.ts. -/
def buildBlueprintComponent (st : Component) : Except String Component :=
  let validationErrors := isValidBlueprintComponent st
  if validationErrors.length > 0 then
    Except.error (String.intercalate "\n" validationErrors)
  else
    Except.ok st

end Comp

namespace Frac

/-- Internal state of the fractal builder from src/src/fractal/entity.ts.
Scalars are held by value; the components field of the source is a
REFERENCE to an array object, modelled as an index into a heap of array
objects. -/
structure FractalBuilderState where
  id : Ids.FractalId
  isPrivate : Bool
  description : String
  componentsRef : Nat
deriving DecidableEq

/-- Heap of array objects holding component lists; index 0 is the single
module-level array allocated for DEFAULT_FRACTAL.components. -/
abbrev Heap := List (List Comp.Component)

/-- Reading the current contents of an array object. -/
def heapGet (h : Heap) (r : Nat) : List Comp.Component := h.getD r []

/-- In-place push onto an array object: every holder of the same
reference observes the change. -/
def heapAppend (h : Heap) (r : Nat) (cs : List Comp.Component) : Heap :=
  h.set r (heapGet h r ++ cs)

/-- The heap at module initialisation: only DEFAULT_FRACTAL.components
exists, an empty array at index 0. -/
def initHeap : Heap := [[]]

/-- getFractalBuilder from src/src/fractal/entity.ts lines 66-69: the
internal state is the shallow copy {...DEFAULT_FRACTAL}.  Scalars are
copied by value, but the components field copies the REFERENCE to the one
default array (index 0), so every fresh builder aliases it. -/
def getFractalBuilder : FractalBuilderState :=
  ⟨Ids.DEFAULT_FRACTAL_ID, false, "", 0⟩

/-- withId setter: mutates the builder state and returns the builder. -/
def withId (st : FractalBuilderState) (value : Ids.FractalId) : FractalBuilderState :=
  { st with id := value }

/-- withIsPrivate setter. -/
def withIsPrivate (st : FractalBuilderState) (value : Bool) : FractalBuilderState :=
  { st with isPrivate := value }

/-- withDescription setter. -/
def withDescription (st : FractalBuilderState) (value : String) : FractalBuilderState :=
  { st with description := value }

/-- withComponent from src/src/fractal/entity.ts lines 91-97: the guard
`if (!internalState.components)` is never taken (an array is truthy), and
the value is PUSHED onto the aliased array in place, mutating the heap
cell shared with every other holder of the reference. -/
def withComponent (h : Heap) (st : FractalBuilderState) (value : Comp.Component) :
    Heap × FractalBuilderState :=
  (heapAppend h st.componentsRef [value], st)

/-- withComponents from src/src/fractal/entity.ts lines 84-90: pushes all
given components onto the aliased array in place. -/
def withComponents (h : Heap) (st : FractalBuilderState)
    (value : List Comp.Component) : Heap × FractalBuilderState :=
  (heapAppend h st.componentsRef value, st)

/-- reset from src/src/fractal/entity.ts: restores the scalar fields and
re-assigns the components field to DEFAULT_FRACTAL.components — the same
shared array reference (index 0); the array contents are NOT cleared. -/
def resetFractal (_st : FractalBuilderState) : FractalBuilderState :=
  ⟨Ids.DEFAULT_FRACTAL_ID, false, "", 0⟩

/-- A fractal record as the validator sees it: the scalar fields together
with the current contents of the components array. -/
structure FractalData where
  id : Ids.FractalId
  isPrivate : Bool
  description : String
  components : List Comp.Component

/-- Dereference of the builder state against the heap. -/
def derefFractal (h : Heap) (st : FractalBuilderState) : FractalData :=
  ⟨st.id, st.isPrivate, st.description, heapGet h st.componentsRef⟩

/-- isValidFractal from src/src/fractal/entity.ts lines 44-53: id errors,
then either the empty-components error labelled with the toString of the
own id, or the concatenation of every component member validation (the
array guard `!fractal.components` is never taken; the reduce with push
concatenates every member error list in order). -/
def isValidFractal (fractal : FractalData) : List String :=
  let idErrors := Ids.isValidFractalId fractal.id
  let componentsErrors :=
    if fractal.components.isEmpty then
      ["[Fractal: " ++ fractal.id.toStr ++ "]: components must not be empty"]
    else
      fractal.components.flatMap Comp.isValidBlueprintComponent
  idErrors ++ componentsErrors

/-- A built Fractal from src/src/fractal/entity.ts lines 105-116: the
spread {...internalState} copies the scalars by value but the components
field again copies the shared array REFERENCE.  The deploy and destroy
closures close over the builder internal state itself. -/
structure Fractal where
  id : Ids.FractalId
  isPrivate : Bool
  description : String
  componentsRef : Nat
deriving DecidableEq

/-- build from src/src/fractal/entity.ts lines 105-116: validates the
current state, throwing the newline-joined errors, otherwise returns the
shallow spread of the internal state. -/
def build (h : Heap) (st : FractalBuilderState) : Except String Fractal :=
  let validationErrors := isValidFractal (derefFractal h st)
  if validationErrors.length > 0 then
    Except.error (String.intercalate "\n" validationErrors)
  else
    Except.ok ⟨st.id, st.isPrivate, st.description, st.componentsRef⟩

/-- Observation of the components of a built Fractal: reading the aliased
array through the current heap. -/
def fractalComponents (h : Heap) (f : Fractal) : List Comp.Component :=
  heapGet h f.componentsRef

/-- A live system record as the validator sees it; fields the embedded
operations never read (requesterId, description, status, provider,
parameters, environment, timestamps) are omitted. -/
structure LiveSystemData where
  id : Ids.LiveSystemId
  fractalId : Ids.FractalId
  components : List Comp.Component

/-- isValidLiveSystem from live_system/entity.ts lines 40-53 of
src/unnamed/part_004: id errors, fractal id errors, then either the
empty-components error labelled with the toString of the own id or the
concatenation of every member validation. -/
def isValidLiveSystem (liveSystem : LiveSystemData) : List String :=
  let idErrors := Ids.isValidLiveSystemId liveSystem.id
  let fractalIdErrors := Ids.isValidFractalId liveSystem.fractalId
  let componentsErrors :=
    if liveSystem.components.isEmpty then
      ["[Live System: " ++ liveSystem.id.toStr ++ "]: components must not be empty"]
    else
      liveSystem.components.flatMap Comp.isValidLiveSystemComponent
  idErrors ++ fractalIdErrors ++ componentsErrors

/-- build of the live system builder from live_system/entity.ts, at the
level of the dereferenced record (the component array aliasing modelled
for the fractal builder applies to this builder as well but is not
re-modelled here). -/
def buildLiveSystem (st : LiveSystemData) : Except String LiveSystemData :=
  let validationErrors := isValidLiveSystem st
  if validationErrors.length > 0 then
    Except.error (String.intercalate "\n" validationErrors)
  else
    Except.ok st

/-- Flattening of one component link by deployFractal
(src/src/fractal/service.ts lines 38-41): componentId is the toString of
the wrapped kebab value, settings the plain map of the link
parameters. -/
def flattenLink (l : Comp.Link) : Json :=
  Json.obj [("componentId", Json.str (Ids.componentIdToString l.id)),
            ("settings", Json.obj (GenericParameters.toMap l.parameters))]

/-- Flattening of one blueprint component by deployFractal
(src/src/fractal/service.ts lines 31-43): the spread {...c} enumerates
the component fields in record order and the explicit entries then
overwrite type, id, version, parameters, dependencies, links and
outputFields in place.  type.toString() resolves to
Object.prototype.toString because the component type object carries no
own toString; id and dependency entries become the kebab string of the
wrapped value; version becomes its dotted string; parameters becomes the
plain map; outputFields becomes the array of its key names. -/
def flattenBlueprintComponent (c : Comp.Component) : Json :=
  Json.obj [("type", Json.str jsObjectDefaultToString),
            ("id", Json.str (Ids.componentIdToString c.id)),
            ("version", Json.str (Values.versionToString c.version)),
            ("displayName", Json.str c.displayName),
            ("description", Json.str c.description),
            ("parameters", Json.obj (GenericParameters.toMap c.parameters)),
            ("outputFields", Json.arr (c.outputFields.map (fun kv => Json.str kv.1))),
            ("links", Json.arr (c.links.map flattenLink)),
            ("dependencies",
             Json.arr (c.dependencies.map (fun d => Json.str (Ids.componentIdToString d.id)))),
            ("isLocked", Json.boolean c.isLocked),
            ("recreateOnFailure", Json.boolean c.recreateOnFailure)]

/-- Request body sent by deployFractal (src/src/fractal/service.ts lines
25-45): description, isPrivate, and components as the ARRAY produced by
Array.map over the fractal components. -/
def deployFractalBody (fractal : FractalData) : Json :=
  Json.obj [("description", Json.str fractal.description),
            ("isPrivate", Json.boolean fractal.isPrivate),
            ("components", Json.arr (fractal.components.map flattenBlueprintComponent))]

/-- Formalisation of the claim wording for the deploy body: the same
description and isPrivate fields, but components as a MAPPING keyed by
the component id string.  This definition follows the words of the
specification and exists only to be compared with deployFractalBody. -/
def deployFractalBodySpecShape (fractal : FractalData) : Json :=
  Json.obj [("description", Json.str fractal.description),
            ("isPrivate", Json.boolean fractal.isPrivate),
            ("components",
             Json.obj (fractal.components.map (fun c =>
               (Ids.componentIdToString c.id, flattenBlueprintComponent c))))]

end Frac

namespace Ex

/-- A concrete RFC-4122 UUID string. -/
def uuid0 : String := "00000000-0000-0000-0000-000000000000"

/-- A built kebab name for a bounded context (allocation 1). -/
def ctxName : Ids.KebabObj := ⟨1, "my-context"⟩

/-- A valid bounded context id built from uuid0 and ctxName. -/
def bc0 : Ids.BoundedContextId := ⟨OwnerType.Personal, ⟨uuid0⟩, ctxName⟩

/-- A built kebab name for a fractal (allocation 2). -/
def fracName : Ids.KebabObj := ⟨2, "my-fractal"⟩

/-- The pre-build state of a fractal id over bc0. -/
def fid0base : Ids.FractalId := ⟨bc0, fracName, ⟨1, 0, 0⟩, ""⟩

/-- The built fractal id: the toString closure composes the path. -/
def fid0 : Ids.FractalId := { fid0base with toStr := Ids.fractalIdCompose fid0base }

/-- Two kebab objects with EQUAL string values but DISTINCT allocations,
as produced by two separate kebab builder build() calls (each build
returns a fresh spread object). -/
def compKebabA : Ids.KebabObj := ⟨3, "my-comp"⟩

/-- Second, separately allocated kebab object with the same value. -/
def compKebabB : Ids.KebabObj := ⟨4, "my-comp"⟩

/-- Component id wrapping the first allocation. -/
def cidA : Ids.ComponentId := ⟨compKebabA⟩

/-- Component id wrapping the second allocation; field-by-field its
constituent value equals that of cidA. -/
def cidB : Ids.ComponentId := ⟨compKebabB⟩

/-- A valid component type. -/
def ctype0 : Comp.ComponentType := ⟨InfrastructureDomain.Storage, "MyType"⟩

/-- A fully valid blueprint component. -/
def comp0 : Comp.Component :=
  ⟨ctype0, cidA, ⟨1, 0, 0⟩, "A Component", "", [], [], [], [], false, false⟩

/-- A component whose only invalid field is its type (the default type
carries the empty, non-Pascal name). -/
def compBadType : Comp.Component :=
  ⟨Comp.DEFAULT_COMPONENT_TYPE, cidA, ⟨1, 0, 0⟩, "A Component", "", [], [], [],
   [], false, false⟩

/-- The (doubly produced) type error of compBadType after context
prefixing. -/
def badTypeError : String :=
  "[Component: my-comp][Component Type: ]Value \x27\x27 must be in PascalCase"

/-- A built kebab name for a live system (allocation 5). -/
def sysName : Ids.KebabObj := ⟨5, "my-system"⟩

/-- The pre-build state of a live system id over bc0. -/
def lsId0base : Ids.LiveSystemId := ⟨bc0, sysName, ""⟩

/-- The built live system id. -/
def lsId0 : Ids.LiveSystemId :=
  { lsId0base with toStr := Ids.liveSystemIdCompose lsId0base }

/-- A live system state with a VALID own id and one VALID component, but
the fractal id left at its default. -/
def ls0 : Frac.LiveSystemData := ⟨lsId0, Ids.DEFAULT_FRACTAL_ID, [comp0]⟩

/-- A built fractal record with one component, as handed to deploy. -/
def fd0 : Frac.FractalData := ⟨fid0, false, "", [comp0]⟩

/-- Fresh fractal builder with the valid id set. -/
def b1 : Frac.FractalBuilderState := Frac.withId Frac.getFractalBuilder fid0

/-- Heap after pushing comp0 through the builder. -/
def h1 : Frac.Heap := (Frac.withComponent Frac.initHeap b1 comp0).1

/-- The Fractal returned by build on (h1, b1). -/
def F0 : Frac.Fractal := ⟨fid0, false, "", 0⟩

/-- Heap after a second withComponent on the SAME builder, issued after
build has already returned F0. -/
def h2 : Frac.Heap := (Frac.withComponent h1 b1 comp0).1

/-- A bounded context id with the same constituent values as bc0 but a
separately allocated name object (a different builder run). -/
def bcAlias : Ids.BoundedContextId :=
  ⟨OwnerType.Personal, ⟨uuid0⟩, ⟨9, "my-context"⟩⟩

/-- Pre-build state of a fractal id with the same constituent values as
fid0 but separately allocated constituents. -/
def fidAliasBase : Ids.FractalId := ⟨bcAlias, ⟨10, "my-fractal"⟩, ⟨1, 0, 0⟩, ""⟩

/-- The built alias fractal id. -/
def fidAlias : Ids.FractalId :=
  { fidAliasBase with toStr := Ids.fractalIdCompose fidAliasBase }

/-- A fully valid live system state: valid own id, valid fractal id and
one valid component. -/
def ls1 : Frac.LiveSystemData := ⟨lsId0, fid0, [comp0]⟩

end Ex

/-- Concatenation over a list all of whose images are empty is empty. -/
theorem flatMap_eq_nil_of {α β : Type} (f : α → List β) :
    ∀ (l : List α), (∀ c ∈ l, f c = []) → l.flatMap f = [] := by
  intro l h
  induction l with
  | nil => rfl
  | cons a t ih =>
    have ha : f a = [] := h a (List.mem_cons_self a t)
    have ht : ∀ c ∈ t, f c = [] := fun c hc => h c (List.mem_cons_of_mem a hc)
    simp [List.flatMap_cons, ha, ih ht]

/-- Membership propagates into a concatenation image. -/
theorem mem_flatMap_of {α β : Type} (f : α → List β) {l : List α} {c : α}
    {e : β} (hc : c ∈ l) (he : e ∈ f c) : e ∈ l.flatMap f := by
  induction l with
  | nil => cases hc
  | cons a t ih =>
    rcases List.mem_cons.mp hc with h | h
    · subst h
      exact List.mem_append_left _ he
    · exact List.mem_append_right _ (ih h)

/-- An element of a list is counted at least once. -/
theorem one_le_count_of_mem {α : Type} [DecidableEq α] {a : α} :
    ∀ {l : List α}, a ∈ l → 1 ≤ l.count a := by
  intro l h
  induction l with
  | nil => cases h
  | cons b t ih =>
    rcases List.mem_cons.mp h with hb | ht
    · subst hb
      simp [List.count_cons]
    · have := ih ht
      simp only [List.count_cons]
      omega

/-- Looking up the key just written by assocSet yields the new value. -/
theorem lookup_assocSet_self {α : Type} (k : String) (v : α) :
    ∀ (c : GenericParameters.Container α),
      (GenericParameters.assocSet c k v).lookup k = some v := by
  intro c
  induction c with
  | nil => simp [GenericParameters.assocSet, List.lookup]
  | cons p rest ih =>
    by_cases hk : p.1 = k
    · simp [GenericParameters.assocSet, hk, List.lookup]
    · have hk1 : (p.1 == k) = false := beq_eq_false_iff_ne.mpr hk
      have hk2 : (k == p.1) = false :=
        beq_eq_false_iff_ne.mpr (fun h => hk h.symm)
      simp [GenericParameters.assocSet, hk1, List.lookup, hk2, ih]

/-- After filtering a key away, the lookup misses. -/
theorem lookup_filter_ne {α : Type} (k : String) :
    ∀ (c : GenericParameters.Container α),
      (c.filter (fun p => p.1 != k)).lookup k = none := by
  intro c
  induction c with
  | nil => simp
  | cons p rest ih =>
    by_cases hk : p.1 = k
    · have hb : (p.1 != k) = false := by simp [hk]
      simp [List.filter, hb, ih]
    · have hb : (p.1 != k) = true := by simp [hk]
      have hk2 : (k == p.1) = false :=
        beq_eq_false_iff_ne.mpr (fun h => hk h.symm)
      simp [List.filter, hb, List.lookup, hk2, ih]

/-- Pushing onto an existing array cell appends to its contents. -/
theorem heapGet_heapAppend_self :
    ∀ (h : Frac.Heap) (r : Nat) (cs : List Comp.Component), r < h.length →
      Frac.heapGet (Frac.heapAppend h r cs) r = Frac.heapGet h r ++ cs := by
  intro h
  induction h with
  | nil => intro r cs hr; cases hr
  | cons x t ih =>
    intro r cs hr
    cases r with
    | zero => simp [Frac.heapGet, Frac.heapAppend, List.set]
    | succ n =>
      have hn : n < t.length := Nat.lt_of_succ_lt_succ hr
      have := ih n cs hn
      simpa [Frac.heapGet, Frac.heapAppend, List.set, List.getD] using this

/-- C1: build() on a freshly created (or freshly reset) builder with no
setters invoked must raise a validation error, the default state being
never valid.  The flat BoundedContextId builder
(src/src/bounded_context_id.ts) violates this: its validity check
computes a conjunction of two arrays, which is always truthy, so build()
returns the default instance without throwing even though both default
constituents fail their leaf validators — contradicting the claim and the
builder's own test.  The remaining builders do fail on their defaults. -/
theorem bounded_context_id_default_build_succeeds :
    Flat.build Flat.DEFAULT_BOUNDED_CONTEXT_ID =
      Except.ok Flat.DEFAULT_BOUNDED_CONTEXT_ID ∧
    Values.isValidOwnerId ("") ≠ [] ∧
    Values.isValidKebabCaseString ("") ≠ [] ∧
    exceptFailed (Values.KebabCaseString.build Values.KebabCaseString.DEFAULT) = true ∧
    exceptFailed (Values.PascalCaseString.build Values.PascalCaseString.DEFAULT) = true ∧
    exceptFailed (Values.OwnerId.build Values.OwnerId.DEFAULT) = true ∧
    exceptFailed (Values.ServiceAccountId.build Values.ServiceAccountId.DEFAULT) = true ∧
    exceptFailed (Values.buildVersion Values.DEFAULT_VERSION) = true ∧
    exceptFailed (Ids.buildBoundedContextId Ids.DEFAULT_BOUNDED_CONTEXT_ID) = true ∧
    exceptFailed (Ids.buildComponentId Ids.DEFAULT_COMPONENT_ID) = true ∧
    exceptFailed (Ids.buildFractalId Ids.DEFAULT_FRACTAL_ID) = true ∧
    exceptFailed (Ids.buildLiveSystemId Ids.DEFAULT_LIVE_SYSTEM_ID) = true ∧
    exceptFailed (Frac.build Frac.initHeap Frac.getFractalBuilder) = true :=
  ⟨rfl, by decide, by decide, rfl, rfl, rfl, rfl, rfl, rfl, rfl, rfl, rfl, rfl⟩

/-- C2 (counterexample): after build() has returned the Fractal F0, a
further withComponent on the same builder pushes onto the components
array that F0 aliases, so the component list observed through the
already-returned entity — the list its deploy operation serializes —
changes from one to two entries. -/
theorem built_fractal_observes_later_withComponent :
    Frac.build Ex.h1 Ex.b1 = Except.ok Ex.F0 ∧
    Frac.fractalComponents Ex.h1 Ex.F0 = [Ex.comp0] ∧
    Frac.fractalComponents Ex.h2 Ex.F0 = [Ex.comp0, Ex.comp0] :=
  ⟨rfl, rfl, rfl⟩

/-- C2 (amended): build() copies the scalar fields of the builder into
the returned Fractal, which later setters therefore cannot change, but
the entity shares the builder's components array: a subsequent
withComponent on the builder appends to the list observed through the
already-built entity, while leaving the builder's scalar state
unchanged. -/
theorem fractal_build_shares_components_array
    (h : Frac.Heap) (st : Frac.FractalBuilderState) (f : Frac.Fractal)
    (c : Comp.Component) (href : st.componentsRef < h.length)
    (hok : Frac.build h st = Except.ok f) :
    (f.id = st.id ∧ f.isPrivate = st.isPrivate ∧ f.description = st.description ∧
      f.componentsRef = st.componentsRef) ∧
    Frac.fractalComponents (Frac.withComponent h st c).1 f =
      Frac.fractalComponents h f ++ [c] ∧
    (Frac.withComponent h st c).2 = st := by
  have hf : f = ⟨st.id, st.isPrivate, st.description, st.componentsRef⟩ := by
    by_cases hv : (Frac.isValidFractal (Frac.derefFractal h st)).length > 0
    · simp [Frac.build, hv] at hok
    · simp [Frac.build, hv] at hok
      exact hok.symm
  subst hf
  refine ⟨⟨rfl, rfl, rfl, rfl⟩, ?_, rfl⟩
  exact heapGet_heapAppend_self h st.componentsRef [c] href

/-- Witness for the amended C2 theorem at the concrete build of F0. -/
theorem fractal_build_shares_components_array_witness :
    (Ex.b1.componentsRef < Ex.h1.length ∧
     Frac.build Ex.h1 Ex.b1 = Except.ok Ex.F0) ∧
    Frac.fractalComponents (Frac.withComponent Ex.h1 Ex.b1 Ex.comp0).1 Ex.F0 =
      Frac.fractalComponents Ex.h1 Ex.F0 ++ [Ex.comp0] :=
  ⟨⟨by decide, rfl⟩,
   (fractal_build_shares_components_array Ex.h1 Ex.b1 Ex.F0 Ex.comp0
     (by decide) rfl).2.1⟩

/-- C3 (counterexample): two calls of getFractalBuilder yield two builder
objects whose internal states are identical records, each holding the
REFERENCE to the single DEFAULT_FRACTAL components array (cell 0); a
withComponent through the first is observed through the second, whose
view changes from the empty list to one entry. -/
theorem fresh_fractal_builders_share_default_components :
    Frac.heapGet Frac.initHeap Frac.getFractalBuilder.componentsRef = [] ∧
    Frac.heapGet (Frac.withComponent Frac.initHeap Frac.getFractalBuilder Ex.comp0).1
      Frac.getFractalBuilder.componentsRef = [Ex.comp0] :=
  ⟨rfl, rfl⟩

/-- C3 (amended): builders created by separate getFractalBuilder() calls
are independent only in their scalar fields; they all alias the one
DEFAULT_FRACTAL components array (reference 0), reset() re-assigns that
same reference, withComponent mutates no scalar state, and a push through
any builder appends to the list every other builder (and DEFAULT_FRACTAL
itself) observes. -/
theorem fractal_builders_alias_one_default_array :
    ∀ (c : Comp.Component),
      Frac.getFractalBuilder.componentsRef = 0 ∧
      Frac.resetFractal Frac.getFractalBuilder = Frac.getFractalBuilder ∧
      (Frac.withComponent Frac.initHeap Frac.getFractalBuilder c).2 =
        Frac.getFractalBuilder ∧
      Frac.heapGet (Frac.withComponent Frac.initHeap Frac.getFractalBuilder c).1
          Frac.getFractalBuilder.componentsRef =
        Frac.heapGet Frac.initHeap Frac.getFractalBuilder.componentsRef ++ [c] :=
  fun _ => ⟨rfl, rfl, rfl, rfl⟩

/-- C4 (counterexample): two ComponentIds built from separately allocated
KebabCaseString objects carrying the SAME string value are not equal:
the ComponentId equals compares the wrapped value objects with the
JavaScript identity operator. -/
theorem component_id_structural_equality_fails :
    Ex.cidA.value.value = Ex.cidB.value.value ∧
    Ids.componentIdEquals Ex.cidA Ex.cidB = false :=
  ⟨rfl, rfl⟩

/-- C4 (amended): equals of BoundedContextId and FractalId is structural
— built identifiers with field-by-field equal constituent values are
equal regardless of the producing builder instances — while
ComponentId.equals compares the wrapped KebabCaseString objects by
reference, so it is equality of the allocation, not of the value. -/
theorem composite_id_equality
    : (∀ a b : Ids.BoundedContextId,
        a.ownerType = b.ownerType →
        a.ownerId.ownerIdValue = b.ownerId.ownerIdValue →
        a.name.value = b.name.value →
        Ids.boundedContextIdEquals a b = true) ∧
      (∀ a b : Ids.FractalId,
        a.boundedContextId.ownerType = b.boundedContextId.ownerType →
        a.boundedContextId.ownerId.ownerIdValue =
          b.boundedContextId.ownerId.ownerIdValue →
        a.boundedContextId.name.value = b.boundedContextId.name.value →
        a.name.value = b.name.value →
        a.version = b.version →
        Ids.fractalIdEquals a b = true) ∧
      (∀ a b : Ids.ComponentId,
        Ids.componentIdEquals a b = true ↔ a.value.ref = b.value.ref) := by
  refine ⟨?_, ?_, ?_⟩
  · intro a b h1 h2 h3
    simp [Ids.boundedContextIdEquals, h1, h2, h3]
  · intro a b h1 h2 h3 h4 h5
    simp [Ids.fractalIdEquals, Ids.boundedContextIdEquals, Ids.kebabEquals,
      Values.versionEquals, h1, h2, h3, h4, h5]
  · intro a b
    simp [Ids.componentIdEquals]

/-- Witness for the amended C4 theorem: bc0 and fid0 compare equal to
identifiers built from separately allocated but value-equal constituents,
and two ComponentIds wrapping the same allocation are equal. -/
theorem composite_id_equality_witness :
    Ids.boundedContextIdEquals Ex.bc0 Ex.bcAlias = true ∧
    Ids.fractalIdEquals Ex.fid0 Ex.fidAlias = true ∧
    (Ids.componentIdEquals Ex.cidA Ex.cidA = true ↔
      Ex.cidA.value.ref = Ex.cidA.value.ref) :=
  ⟨composite_id_equality.1 Ex.bc0 Ex.bcAlias rfl rfl rfl,
   composite_id_equality.2.1 Ex.fid0 Ex.fidAlias rfl rfl rfl rfl rfl,
   composite_id_equality.2.2 Ex.cidA Ex.cidA⟩

/-- C5 (counterexample): a component whose only violated rule is the
component-type rule produces the same error string TWICE — the validator
spreads the type errors twice — so the aggregated build message is not
one entry per violated rule. -/
theorem component_type_error_reported_twice :
    Comp.isValidComponent Ex.compBadType = [Ex.badTypeError, Ex.badTypeError] ∧
    Comp.buildComponent Ex.compBadType =
      Except.error (Ex.badTypeError ++ "\n" ++ Ex.badTypeError) :=
  ⟨rfl, rfl⟩

/-- C5 (amended): when the validator reports violations, build() raises a
single failure whose message is the newline-joined concatenation of the
produced error strings; every violated rule is reported, never only the
first — but the component-type errors are included twice, so a type
violation contributes its message (at least) twice while the other rules
contribute their entries once each. -/
theorem component_build_aggregates_every_error (c : Comp.Component) :
    (Comp.isValidComponent c ≠ [] →
      Comp.buildComponent c =
        Except.error (String.intercalate "\n" (Comp.isValidComponent c))) ∧
    (∀ e ∈ Comp.addContextToErrors c.id (Ids.isValidId c.id),
      e ∈ Comp.isValidComponent c) ∧
    (∀ e ∈ Comp.addContextToErrors c.id (Values.isValidVersion c.version),
      e ∈ Comp.isValidComponent c) ∧
    (∀ e ∈ Comp.addContextToErrors c.id
        (if Values.isNonEmptyString c.displayName then []
         else ["Display name must be a non-empty string"]),
      e ∈ Comp.isValidComponent c) ∧
    (∀ e ∈ Comp.addContextToErrors c.id (Comp.isValidComponentType c.type),
      2 ≤ (Comp.isValidComponent c).count e) := by
  refine ⟨?_, ?_, ?_, ?_, ?_⟩
  · intro hne
    have hpos : 0 < (Comp.isValidComponent c).length := List.length_pos.mpr hne
    simp [Comp.buildComponent, hpos]
  · intro e he
    simp only [Comp.isValidComponent, List.mem_append]
    exact Or.inl (Or.inl (Or.inl (Or.inl he)))
  · intro e he
    simp only [Comp.isValidComponent, List.mem_append]
    exact Or.inl (Or.inl (Or.inr he))
  · intro e he
    simp only [Comp.isValidComponent, List.mem_append]
    exact Or.inr he
  · intro e he
    have h1 :
        1 ≤ (Comp.addContextToErrors c.id (Comp.isValidComponentType c.type)).count e :=
      one_le_count_of_mem he
    simp only [Comp.isValidComponent, List.count_append]
    omega

/-- Witness for the amended C5 theorem at the component with the invalid
type. -/
theorem component_build_aggregates_every_error_witness :
    (Comp.isValidComponent Ex.compBadType ≠ [] ∧
     Comp.buildComponent Ex.compBadType =
       Except.error (String.intercalate "\n" (Comp.isValidComponent Ex.compBadType))) ∧
    (Ex.badTypeError ∈
       Comp.addContextToErrors Ex.compBadType.id
         (Comp.isValidComponentType Ex.compBadType.type) ∧
     2 ≤ (Comp.isValidComponent Ex.compBadType).count Ex.badTypeError) :=
  ⟨⟨by decide, (component_build_aggregates_every_error Ex.compBadType).1 (by decide)⟩,
   ⟨by decide,
    (component_build_aggregates_every_error Ex.compBadType).2.2.2.2 Ex.badTypeError
      (by decide)⟩⟩

/-- C6: for every leaf primitive builder, withValue on an input failing
the format check is claimed to raise a range violation eagerly.  In the
sources none of the four does: the kebab, Pascal and service-account
builders store the candidate without any check, and the owner-id guard
negates an error ARRAY — always truthy — so its RangeError branch is
dead.  Each malformed input below fails its validator yet is accepted by
withValue. -/
theorem leaf_withValue_never_raises :
    Values.isValidKebabCaseString ("My_Service") ≠ [] ∧
    Values.KebabCaseString.withValue ("My_Service") = Except.ok ("My_Service") ∧
    Values.isValidPascalCaseString ("not-pascal") ≠ [] ∧
    Values.PascalCaseString.withValue ("not-pascal") = Except.ok ("not-pascal") ∧
    Values.isValidOwnerId ("not-a-uuid") ≠ [] ∧
    Values.OwnerId.withValue ("not-a-uuid") = Except.ok ("not-a-uuid") ∧
    Values.isValidServiceAccountId ("not-a-uuid") ≠ [] ∧
    Values.ServiceAccountId.withValue ("not-a-uuid") = Except.ok ("not-a-uuid") :=
  ⟨by decide, rfl, by decide, rfl, by decide, rfl, by decide, rfl⟩

/-- C7 (counterexample): for a concrete built Fractal the deploy body's
components field is the ARRAY of flattened components, not a mapping
keyed by component id as the claim states (the spec-shaped body with the
keyed mapping is a different value). -/
theorem deploy_body_components_not_keyed :
    Json.field (Frac.deployFractalBody Ex.fd0) "components" =
      some (Json.arr [Frac.flattenBlueprintComponent Ex.comp0]) ∧
    Json.isObj (Json.arr [Frac.flattenBlueprintComponent Ex.comp0]) = false ∧
    Json.field (Frac.deployFractalBodySpecShape Ex.fd0) "components" =
      some (Json.obj [("my-comp", Frac.flattenBlueprintComponent Ex.comp0)]) :=
  ⟨rfl, rfl, rfl⟩

/-- C7 (amended): the deploy request body is {description, isPrivate,
components} with components an ARRAY of flattened components (the
id-keyed mapping appears only in the live-system deploy); within every
flattened component, identifiers are flattened to their kebab string
form, the version to its dotted string, the parameters to the plain map
of toMap(), the links to componentId/settings pairs and the dependencies
to bare id strings. -/
theorem deploy_body_shape_and_flattening :
    (∀ f : Frac.FractalData,
      Frac.deployFractalBody f =
        Json.obj [("description", Json.str f.description),
                  ("isPrivate", Json.boolean f.isPrivate),
                  ("components",
                   Json.arr (f.components.map Frac.flattenBlueprintComponent))]) ∧
    (∀ c : Comp.Component,
      Json.field (Frac.flattenBlueprintComponent c) "id" =
        some (Json.str (Ids.componentIdToString c.id)) ∧
      Json.field (Frac.flattenBlueprintComponent c) "version" =
        some (Json.str (Values.versionToString c.version)) ∧
      Json.field (Frac.flattenBlueprintComponent c) "parameters" =
        some (Json.obj (GenericParameters.toMap c.parameters)) ∧
      Json.field (Frac.flattenBlueprintComponent c) "links" =
        some (Json.arr (c.links.map Frac.flattenLink)) ∧
      Json.field (Frac.flattenBlueprintComponent c) "dependencies" =
        some (Json.arr (c.dependencies.map
          (fun d => Json.str (Ids.componentIdToString d.id))))) ∧
    (∀ l : Comp.Link,
      Frac.flattenLink l =
        Json.obj [("componentId", Json.str (Ids.componentIdToString l.id)),
                  ("settings", Json.obj (GenericParameters.toMap l.parameters))]) :=
  ⟨fun _ => rfl, fun _ => ⟨rfl, rfl, rfl, rfl, rfl⟩, fun _ => rfl⟩

/-- C8: the claim says a negative input to a Version setter is rejected
with a range error and can never appear in a built Version.  withMajor
assigns the value BEFORE testing it (unlike withMinor and withPatch,
which test first), so the RangeError is thrown but the state already
holds the negative major; isValidVersion rejects only the all-zero
triple, hence a subsequent build() returns a Version with major -1. -/
theorem version_negative_major_reaches_build :
    (Values.withMajor Values.DEFAULT_VERSION (-1)).2 =
      some ("Major version must be non-negative") ∧
    Values.buildVersion (Values.withMajor Values.DEFAULT_VERSION (-1)).1 =
      Except.ok ⟨-1, 0, 0⟩ ∧
    (Values.withMinor Values.DEFAULT_VERSION (-1)).1 = Values.DEFAULT_VERSION ∧
    (Values.withPatch Values.DEFAULT_VERSION (-1)).1 = Values.DEFAULT_VERSION :=
  ⟨rfl, rfl, rfl, rfl⟩

/-- C9 (counterexample): a LiveSystem whose own id is valid and whose
single component is valid still fails to build, because the validator
also checks the fractal id, here left at its default. -/
theorem live_system_valid_id_and_component_build_fails :
    Ids.isValidLiveSystemId Ex.lsId0 = [] ∧
    Comp.isValidLiveSystemComponent Ex.comp0 = [] ∧
    exceptFailed (Frac.buildLiveSystem Ex.ls0) = true :=
  ⟨rfl, rfl, rfl⟩

/-- C9 (amended): building a Fractal or LiveSystem with an empty
components list fails and the error list carries the
components-must-not-be-empty entry labelled with the aggregate's own
identifier; a Fractal with a valid id and only valid components builds,
a LiveSystem needs a valid fractal id as well; and every invalid member's
errors all appear in the aggregate's error list — aggregated, not
short-circuited. -/
theorem aggregate_components_validation :
    (∀ (h : Frac.Heap) (st : Frac.FractalBuilderState),
      Frac.heapGet h st.componentsRef = [] →
      ("[Fractal: " ++ st.id.toStr ++ "]: components must not be empty") ∈
        Frac.isValidFractal (Frac.derefFractal h st) ∧
      exceptFailed (Frac.build h st) = true) ∧
    (∀ (h : Frac.Heap) (st : Frac.FractalBuilderState),
      Ids.isValidFractalId st.id = [] →
      Frac.heapGet h st.componentsRef ≠ [] →
      (∀ c ∈ Frac.heapGet h st.componentsRef,
        Comp.isValidBlueprintComponent c = []) →
      Frac.build h st =
        Except.ok ⟨st.id, st.isPrivate, st.description, st.componentsRef⟩) ∧
    (∀ (h : Frac.Heap) (st : Frac.FractalBuilderState) (c : Comp.Component),
      c ∈ Frac.heapGet h st.componentsRef →
      ∀ e ∈ Comp.isValidBlueprintComponent c,
        e ∈ Frac.isValidFractal (Frac.derefFractal h st)) ∧
    (∀ ls : Frac.LiveSystemData,
      ls.components = [] →
      ("[Live System: " ++ ls.id.toStr ++ "]: components must not be empty") ∈
        Frac.isValidLiveSystem ls ∧
      exceptFailed (Frac.buildLiveSystem ls) = true) ∧
    (∀ ls : Frac.LiveSystemData,
      Ids.isValidLiveSystemId ls.id = [] →
      Ids.isValidFractalId ls.fractalId = [] →
      ls.components ≠ [] →
      (∀ c ∈ ls.components, Comp.isValidLiveSystemComponent c = []) →
      Frac.buildLiveSystem ls = Except.ok ls) ∧
    (∀ (ls : Frac.LiveSystemData) (c : Comp.Component),
      c ∈ ls.components →
      ∀ e ∈ Comp.isValidLiveSystemComponent c, e ∈ Frac.isValidLiveSystem ls) := by
  refine ⟨?_, ?_, ?_, ?_, ?_, ?_⟩
  · intro h st hempty
    have hval : Frac.isValidFractal (Frac.derefFractal h st) =
        Ids.isValidFractalId st.id ++
          ["[Fractal: " ++ st.id.toStr ++ "]: components must not be empty"] := by
      simp [Frac.isValidFractal, Frac.derefFractal, hempty]
    refine ⟨?_, ?_⟩
    · rw [hval]
      exact List.mem_append_right _ (List.mem_singleton.mpr rfl)
    · have hpos : 0 < (Frac.isValidFractal (Frac.derefFractal h st)).length := by
        rw [hval]
        simp
      simp [Frac.build, hpos, exceptFailed]
  · intro h st hid hne hall
    have hcomp :
        (Frac.heapGet h st.componentsRef).flatMap Comp.isValidBlueprintComponent = [] :=
      flatMap_eq_nil_of _ _ hall
    have hisempty : (Frac.heapGet h st.componentsRef).isEmpty = false := by
      cases hcl : Frac.heapGet h st.componentsRef with
      | nil => exact absurd hcl hne
      | cons a t => rfl
    have hval : Frac.isValidFractal (Frac.derefFractal h st) = [] := by
      simp [Frac.isValidFractal, Frac.derefFractal, hid, hisempty, hcomp]
    simp [Frac.build, hval]
  · intro h st c hc e he
    have hisempty : (Frac.heapGet h st.componentsRef).isEmpty = false := by
      cases hcl : Frac.heapGet h st.componentsRef with
      | nil =>
        rw [hcl] at hc
        cases hc
      | cons a t => rfl
    simp only [Frac.isValidFractal, Frac.derefFractal, hisempty, Bool.false_eq_true,
      if_false, List.mem_append]
    exact Or.inr (mem_flatMap_of _ hc he)
  · intro ls hempty
    have hval : Frac.isValidLiveSystem ls =
        Ids.isValidLiveSystemId ls.id ++ Ids.isValidFractalId ls.fractalId ++
          ["[Live System: " ++ ls.id.toStr ++ "]: components must not be empty"] := by
      simp [Frac.isValidLiveSystem, hempty]
    refine ⟨?_, ?_⟩
    · rw [hval]
      exact List.mem_append_right _ (List.mem_singleton.mpr rfl)
    · have hpos : 0 < (Frac.isValidLiveSystem ls).length := by
        rw [hval]
        simp
      simp [Frac.buildLiveSystem, hpos, exceptFailed]
  · intro ls hid hfid hne hall
    have hcomp : ls.components.flatMap Comp.isValidLiveSystemComponent = [] :=
      flatMap_eq_nil_of _ _ hall
    have hisempty : ls.components.isEmpty = false := by
      cases hcl : ls.components with
      | nil => exact absurd hcl hne
      | cons a t => rfl
    have hval : Frac.isValidLiveSystem ls = [] := by
      simp [Frac.isValidLiveSystem, hid, hfid, hisempty, hcomp]
    simp [Frac.buildLiveSystem, hval]
  · intro ls c hc e he
    have hisempty : ls.components.isEmpty = false := by
      cases hcl : ls.components with
      | nil =>
        rw [hcl] at hc
        cases hc
      | cons a t => rfl
    simp only [Frac.isValidLiveSystem, hisempty, Bool.false_eq_true, if_false,
      List.mem_append]
    exact Or.inr (mem_flatMap_of _ hc he)

/-- Witness for the amended C9 theorem: the empty default fractal state
fails, the concrete valid fractal state builds, and the fully valid live
system builds. -/
theorem aggregate_components_validation_witness :
    (Frac.heapGet Frac.initHeap Frac.getFractalBuilder.componentsRef = [] ∧
     exceptFailed (Frac.build Frac.initHeap Frac.getFractalBuilder) = true) ∧
    (Ids.isValidFractalId Ex.b1.id = [] ∧
     Frac.build Ex.h1 Ex.b1 =
       Except.ok ⟨Ex.b1.id, Ex.b1.isPrivate, Ex.b1.description, Ex.b1.componentsRef⟩) ∧
    (Ids.isValidLiveSystemId Ex.ls1.id = [] ∧
     Ids.isValidFractalId Ex.ls1.fractalId = [] ∧
     Frac.buildLiveSystem Ex.ls1 = Except.ok Ex.ls1) :=
  ⟨⟨rfl, (aggregate_components_validation.1 Frac.initHeap Frac.getFractalBuilder rfl).2⟩,
   ⟨rfl,
    aggregate_components_validation.2.1 Ex.h1 Ex.b1 rfl
      (fun hx => List.noConfusion hx)
      (by
        intro c hc
        have hc2 : c ∈ [Ex.comp0] := hc
        have h2 : c = Ex.comp0 := List.mem_singleton.mp hc2
        rw [h2]
        rfl)⟩,
   ⟨rfl, rfl,
    aggregate_components_validation.2.2.2.2.1 Ex.ls1 rfl rfl
      (fun hx => List.noConfusion hx)
      (by
        intro c hc
        have hc2 : c ∈ [Ex.comp0] := hc
        have h2 : c = Ex.comp0 := List.mem_singleton.mp hc2
        rw [h2]
        rfl)⟩⟩

/-- C10 (counterexample): on a fresh parameter container, the name
toString was never pushed, yet getRequiredFieldByName returns the member
inherited from Object.prototype instead of throwing, and
getOptionalFieldByName returns that member instead of the null
sentinel. -/
theorem required_field_inherited_member_counterexample :
    GenericParameters.getRequiredFieldByName
        (GenericParameters.getParametersInstance :
          GenericParameters.Container (List (String × String))) "toString" =
      Except.ok (GenericParameters.JsVal.protoMember ("toString")) ∧
    GenericParameters.getOptionalFieldByName
        (GenericParameters.getParametersInstance :
          GenericParameters.Container (List (String × String))) "toString" =
      GenericParameters.JsVal.protoMember ("toString") :=
  ⟨rfl, rfl⟩

/-- C10 (amended): for every name that is NOT an Object.prototype member
name and is absent from the container (never pushed, or removed since),
getRequiredFieldByName throws the missing-field error and
getOptionalFieldByName returns the null sentinel; and after push(key,
value) under any key other than __proto__, both lookups return the value
and toMap() contains the key mapped to it. -/
theorem generic_parameters_lookup_contract :
    (∀ (α : Type) (container : GenericParameters.Container α) (name : String),
      GenericParameters.objectPrototypeKeys.contains name = false →
      container.lookup name = none →
      GenericParameters.getRequiredFieldByName container name =
        Except.error ("Required field " ++ name ++ " is not defined") ∧
      GenericParameters.getOptionalFieldByName container name =
        GenericParameters.JsVal.jsnull) ∧
    (∀ (α : Type) (container : GenericParameters.Container α) (name : String),
      GenericParameters.objectPrototypeKeys.contains name = false →
      GenericParameters.getRequiredFieldByName
          (GenericParameters.remove container name) name =
        Except.error ("Required field " ++ name ++ " is not defined")) ∧
    (∀ (α : Type) (container : GenericParameters.Container α) (key : String) (v : α),
      (key == "__proto__") = false →
      GenericParameters.getRequiredFieldByName
          (GenericParameters.push container key v) key =
        Except.ok (GenericParameters.JsVal.value v) ∧
      GenericParameters.getOptionalFieldByName
          (GenericParameters.push container key v) key =
        GenericParameters.JsVal.value v ∧
      (GenericParameters.toMap (GenericParameters.push container key v)).lookup key =
        some v) := by
  refine ⟨?_, ?_, ?_⟩
  · intro α container name hnk hlk
    have hmem : name ∉ GenericParameters.objectPrototypeKeys := by
      simpa using hnk
    have hget : GenericParameters.containerGet container name =
        GenericParameters.JsVal.undef := by
      simp [GenericParameters.containerGet, hlk, hmem]
    exact ⟨by simp [GenericParameters.getRequiredFieldByName, hget],
           by simp [GenericParameters.getOptionalFieldByName, hget]⟩
  · intro α container name hnk
    have hmem : name ∉ GenericParameters.objectPrototypeKeys := by
      simpa using hnk
    have hlk : (GenericParameters.remove container name).lookup name = none :=
      lookup_filter_ne name container
    have hget : GenericParameters.containerGet
        (GenericParameters.remove container name) name =
        GenericParameters.JsVal.undef := by
      simp [GenericParameters.containerGet, hlk, hmem]
    simp [GenericParameters.getRequiredFieldByName, hget]
  · intro α container key v hk
    have hlk : (GenericParameters.push container key v).lookup key = some v := by
      simp [GenericParameters.push, hk]
      exact lookup_assocSet_self key v container
    have hget : GenericParameters.containerGet
        (GenericParameters.push container key v) key =
        GenericParameters.JsVal.value v := by
      simp [GenericParameters.containerGet, hlk]
    exact ⟨by simp [GenericParameters.getRequiredFieldByName, hget],
           by simp [GenericParameters.getOptionalFieldByName, hget],
           by simpa [GenericParameters.toMap] using hlk⟩

/-- Witness for the amended C10 theorem at concrete inputs. -/
theorem generic_parameters_lookup_contract_witness :
    (GenericParameters.objectPrototypeKeys.contains "missing" = false ∧
     (GenericParameters.getParametersInstance :
        GenericParameters.Container Nat).lookup "missing" = none ∧
     GenericParameters.getRequiredFieldByName
         (GenericParameters.getParametersInstance :
           GenericParameters.Container Nat) "missing" =
       Except.error ("Required field " ++ "missing" ++ " is not defined") ∧
     GenericParameters.getOptionalFieldByName
         (GenericParameters.getParametersInstance :
           GenericParameters.Container Nat) "missing" =
       GenericParameters.JsVal.jsnull) ∧
    (("param" == "__proto__") = false ∧
     GenericParameters.getRequiredFieldByName
         (GenericParameters.push
           (GenericParameters.getParametersInstance :
             GenericParameters.Container Nat) "param" 7) "param" =
       Except.ok (GenericParameters.JsVal.value 7) ∧
     (GenericParameters.toMap
         (GenericParameters.push
           (GenericParameters.getParametersInstance :
             GenericParameters.Container Nat) "param" 7)).lookup "param" =
       some 7) :=
  ⟨⟨rfl, rfl,
    (generic_parameters_lookup_contract.1 Nat
      GenericParameters.getParametersInstance "missing" rfl rfl).1,
    (generic_parameters_lookup_contract.1 Nat
      GenericParameters.getParametersInstance "missing" rfl rfl).2⟩,
   ⟨rfl,
    (generic_parameters_lookup_contract.2.2 Nat
      GenericParameters.getParametersInstance "param" 7 rfl).1,
    (generic_parameters_lookup_contract.2.2 Nat
      GenericParameters.getParametersInstance "param" 7 rfl).2.2⟩⟩

end FractalSdk
